import Mathlib

/-
Verification development for the page-monitor repository (src/monitor.py).
Shallow embedding: pure helpers are translated directly; the playwright
fetch functions are modelled as functions of an explicit step environment
recording, for each awaited operation, whether it returns a value or
raises; the diff/notify loop of main is a fold over the result list.
-/

namespace PageMonitor

set_option maxRecDepth 200000

/-! ## SHA-1 (hashlib.sha1 over UTF-8 bytes, hexdigest) -/

/-- 2^32 truncation for 32-bit word arithmetic. -/
def w32 (n : Nat) : Nat := n % 4294967296

/-- Rotate a 32-bit word left by k bits (input assumed already reduced). -/
def rotl (k n : Nat) : Nat := w32 (n * 2 ^ k) + n / 2 ^ (32 - k)

/-- Standard UTF-8 encoding of one Unicode scalar value, as byte values.
Matches Python str.encode("utf-8") on valid text (the errors="ignore"
branch is unreachable for scalar values). -/
def encodeChar (n : Nat) : List Nat :=
  if n < 128 then [n]
  else if n < 2048 then [192 + n / 64, 128 + n % 64]
  else if n < 65536 then [224 + n / 4096, 128 + n / 64 % 64, 128 + n % 64]
  else [240 + n / 262144, 128 + n / 4096 % 64, 128 + n / 64 % 64, 128 + n % 64]

/-- UTF-8 bytes of a string. -/
def utf8Bytes (s : String) : List Nat :=
  (s.toList.map (fun c => encodeChar c.toNat)).flatten

/-- Big-endian byte decomposition of n into k bytes. -/
def bytesBE (k n : Nat) : List Nat :=
  (List.range k).map (fun i => n / 2 ^ (8 * (k - 1 - i)) % 256)

/-- SHA-1 message padding: append 0x80, zero bytes to 56 mod 64, then the
bit length as 8 big-endian bytes. -/
def sha1Pad (msg : List Nat) : List Nat :=
  let len := msg.length
  let padZeros := (119 - len % 64) % 64
  msg ++ [128] ++ List.replicate padZeros 0 ++ bytesBE 8 (len * 8)

/-- Split a padded message into 64-byte blocks (fuel = list length). -/
def blocksAux : Nat → List Nat → List (List Nat)
  | 0, _ => []
  | fuel + 1, l => if l.isEmpty then [] else l.take 64 :: blocksAux fuel (l.drop 64)

def sha1Blocks (l : List Nat) : List (List Nat) := blocksAux l.length l

/-- The sixteen 32-bit big-endian words of one 64-byte block. -/
def wordsOf (b : List Nat) : List Nat :=
  (List.range 16).map (fun i =>
    b.getD (4 * i) 0 * 16777216 + b.getD (4 * i + 1) 0 * 65536 +
    b.getD (4 * i + 2) 0 * 256 + b.getD (4 * i + 3) 0)

/-- Message-schedule extension of the 16 words to 80 words. -/
def extendWords (ws : List Nat) : List Nat :=
  (List.range 64).foldl
    (fun acc _ =>
      let m := acc.length
      acc ++ [rotl 1 (Nat.xor (Nat.xor (acc.getD (m - 3) 0) (acc.getD (m - 8) 0))
                      (Nat.xor (acc.getD (m - 14) 0) (acc.getD (m - 16) 0)))])
    ws

/-- One SHA-1 round: state (a,b,c,d,e), round index i, schedule word wi. -/
def sha1Step (st : Nat × Nat × Nat × Nat × Nat) (iw : Nat × Nat) :
    Nat × Nat × Nat × Nat × Nat :=
  let (a, b, c, d, e) := st
  let (i, wi) := iw
  let f :=
    if i < 20 then Nat.lor (Nat.land b c) (Nat.land (4294967295 - b) d)
    else if i < 40 then Nat.xor (Nat.xor b c) d
    else if i < 60 then Nat.lor (Nat.lor (Nat.land b c) (Nat.land b d)) (Nat.land c d)
    else Nat.xor (Nat.xor b c) d
  let k :=
    if i < 20 then 1518500249
    else if i < 40 then 1859775393
    else if i < 60 then 2400959708
    else 3395469782
  let temp := w32 (rotl 5 a + f + e + k + wi)
  (temp, a, rotl 30 b, c, d)

/-- Process one 64-byte block, updating the five hash words. -/
def sha1Block (h : Nat × Nat × Nat × Nat × Nat) (b : List Nat) :
    Nat × Nat × Nat × Nat × Nat :=
  let (h0, h1, h2, h3, h4) := h
  let ws := extendWords (wordsOf b)
  let (a, bb, c, d, e) := ws.enum.foldl sha1Step (h0, h1, h2, h3, h4)
  (w32 (h0 + a), w32 (h1 + bb), w32 (h2 + c), w32 (h3 + d), w32 (h4 + e))

def hexDigit (n : Nat) : Char :=
  if n < 10 then Char.ofNat (48 + n) else Char.ofNat (87 + n)

/-- Lowercase 8-hex-digit rendering of a 32-bit word. -/
def toHex8 (n : Nat) : String :=
  String.mk ((List.range 8).map (fun i => hexDigit (n / 16 ^ (7 - i) % 16)))

/-- hashlib.sha1(s.encode("utf-8")).hexdigest() -/
def sha1 (s : String) : String :=
  let (h0, h1, h2, h3, h4) :=
    (sha1Blocks (sha1Pad (utf8Bytes s))).foldl sha1Block
      (1732584193, 4023233417, 2562383102, 271733878, 3285377520)
  toHex8 h0 ++ toHex8 h1 ++ toHex8 h2 ++ toHex8 h3 ++ toHex8 h4

/-- FIPS 180 test vector, validating the SHA-1 embedding. -/
theorem sha1_known_vector : sha1 "abc" = "a9993e364706816aba3e25717850c26c9cd0d89d" := by
  decide

/-! ## extract_comment_count (monitor.py lines 59-72)

The three patterns searched by re.search with re.IGNORECASE are embedded
as token lists over a literal/whitespace alphabet; since in each pattern
every whitespace class is followed by a non-whitespace literal and the
final digit class follows a non-digit literal, maximal-munch matching is
exactly the regex semantics, and trying a full match at each position
left to right is exactly re.search. -/

/-- Python re whitespace class for str patterns (Unicode whitespace). -/
def isSpaceRe (c : Char) : Bool :=
  let n := c.toNat
  n = 32 || n = 9 || n = 10 || n = 13 || n = 11 || n = 12 ||
  n = 28 || n = 29 || n = 30 || n = 31 ||
  n = 133 || n = 160 || n = 5760 || (8192 ≤ n && n ≤ 8202) ||
  n = 8232 || n = 8233 || n = 8239 || n = 8287 || n = 12288

/-- Python re digit class; the inputs of interest use ASCII digits (the
additional Unicode decimal digits play no role in any claim). -/
def isDigitRe (c : Char) : Bool := 48 ≤ c.toNat && c.toNat ≤ 57

/-- Pattern token: a case-insensitive literal, one-or-more whitespace,
or zero-or-more whitespace. -/
inductive RTok where
  | lit (s : String)
  | ws1
  | ws0

/-- Case-insensitive literal match, returning the remaining input. -/
def matchLit : List Char → List Char → Option (List Char)
  | [], cs => some cs
  | _ :: _, [] => none
  | p :: ps, c :: cs => if p.toLower = c.toLower then matchLit ps cs else none

/-- Match a token sequence at the head of the input (maximal munch on the
whitespace classes), returning the remaining input. -/
def matchToks : List RTok → List Char → Option (List Char)
  | [], cs => some cs
  | .lit s :: toks, cs =>
    match matchLit s.toList cs with
    | some rest => matchToks toks rest
    | none => none
  | .ws1 :: _, [] => none
  | .ws1 :: toks, c :: cs =>
    if isSpaceRe c then matchToks toks (cs.dropWhile isSpaceRe) else none
  | .ws0 :: toks, cs => matchToks toks (cs.dropWhile isSpaceRe)

/-- Decimal value of a digit list (int(m.group(1)) in the source). -/
def digitsToInt (ds : List Char) : Int :=
  Int.ofNat (ds.foldl (fun a c => a * 10 + (c.toNat - 48)) 0)

/-- Match one pattern followed by its capture group (\d+) at the head of
the input, returning the captured value. -/
def matchCount (toks : List RTok) (cs : List Char) : Option Int :=
  match matchToks toks cs with
  | none => none
  | some rest =>
    let ds := rest.takeWhile isDigitRe
    if ds.isEmpty then none else some (digitsToInt ds)

/-- re.search: try a full match at each position, leftmost first. -/
def reSearch (toks : List RTok) : List Char → Option Int
  | [] => matchCount toks []
  | c :: cs =>
    match matchCount toks (c :: cs) with
    | some v => some v
    | none => reSearch toks cs

def pat1 : List RTok :=
  [.lit "Totale", .ws1, .lit "dei", .ws1, .lit "commenti", .ws0, .lit ":", .ws0]

def pat2 : List RTok :=
  [.lit "Totale", .ws1, .lit "del", .ws1, .lit "commenti", .ws0, .lit ":", .ws0]

def pat3 : List RTok :=
  [.lit "Totale", .ws1, .lit "commenti", .ws0, .lit ":", .ws0]

/-- monitor.py extract_comment_count: try the three patterns in order;
the int() conversion of a nonempty ASCII digit group cannot raise, so the
except branch of the source is unreachable. -/
def extract_comment_count (html : String) : Option Int :=
  match reSearch pat1 html.toList with
  | some v => some v
  | none =>
    match reSearch pat2 html.toList with
    | some v => some v
    | none => reSearch pat3 html.toList

/-! ## Data model (monitor.py lines 129-143) -/

structure Target where
  name : String
  type : String
  url : String
deriving DecidableEq, Repr

structure PageResult where
  target : Target
  ok : Bool
  count : Option Int := none
  first_text : Option String := none
  first_hash : Option String := none
  page_hash : Option String := none
  error : Option String := none
deriving DecidableEq, Repr

/-- One persisted state record (a JSON object value of state.json). The
count field is some n exactly when the key is present with an integer
value, matching the isinstance(prev_count, int) guard in main; likewise
page_hash is some h exactly when the key holds a string. Keys the code
never writes for a branch are modelled as absent (none). -/
structure StateRec where
  type : String := ""
  name : String := ""
  count : Option Int := none
  first_hash : Option String := none
  first_text_preview : Option String := none
  page_hash : Option String := none
deriving DecidableEq, Repr

/-- Python dict as an insertion-ordered association list with unique keys:
assignment overwrites in place, otherwise appends (dict semantics). -/
abbrev StateMap := List (String × StateRec)

def dictGet : StateMap → String → Option StateRec
  | [], _ => none
  | (k, v) :: t, u => if k = u then some v else dictGet t u

def dictInsert : StateMap → String → StateRec → StateMap
  | [], u, r => [(u, r)]
  | (k, v) :: t, u, r =>
    if k = u then (k, r) :: t else (k, v) :: dictInsert t u r

/-! ## Fetch model (monitor.py lines 147-204)

Each awaited playwright operation either returns a value or raises; a
fetch environment records the behaviour of every operation performed by
one call of a fetch coroutine.  The fetch functions are then literal
translations: an operation inside the try block that raises goes to the
matching except handler; page = await context.new_page() sits before the
try, so its exception leaves the coroutine. -/

inductive PyErr where
  | timeout
  | exn (msg : String)
deriving DecidableEq, Repr

/-- Outcome of one awaited operation: a value, or a raised exception. -/
inductive Step (α : Type) where
  | ok (a : α)
  | err (e : PyErr)
deriving DecidableEq, Repr

/-- The navigation response page.goto returns; monitor.py discards it, so
its HTTP status is never inspected (contrast debug.py, which reads
resp.status). -/
structure NavResponse where
  status : Int
deriving DecidableEq, Repr

structure FetchEnv where
  new_page : Step Unit
  route : Step Unit
  goto : Step NavResponse
  wait : Step Unit
  content : Step String
  evaluate : Step (Option String)
  close : Step Unit
deriving DecidableEq, Repr

/-- monitor.py extract_first_comment_text: the page.evaluate call is
wrapped in try/except returning None, a truthy result is stripped. -/
def extract_first_comment_text (env : FetchEnv) : Option String :=
  match env.evaluate with
  | .err _ => none
  | .ok none => none
  | .ok (some txt) => if txt = "" then none else some txt.trim

/-- The PageResult built by the two except handlers. -/
def failResult (t : Target) (e : PyErr) : PageResult :=
  { target := t, ok := false,
    error := some (match e with
      | .timeout => "Timeout caricamento pagina."
      | .exn m => "Errore: " ++ m) }

/-- monitor.py fetch_investing.  Step.err out of the whole function means
the exception propagated out of the coroutine (only possible from
context.new_page, which precedes the try block). -/
def fetch_investing (env : FetchEnv) (t : Target) : Step PageResult :=
  match env.new_page with
  | .err e => .err e
  | .ok _ =>
    match env.route with
    | .err e => .ok (failResult t e)
    | .ok _ =>
      match env.goto with
      | .err e => .ok (failResult t e)
      | .ok _ =>
        match env.wait with
        | .err e => .ok (failResult t e)
        | .ok _ =>
          match env.content with
          | .err e => .ok (failResult t e)
          | .ok html =>
            let count := extract_comment_count html
            let first_text := extract_first_comment_text env
            let first_hash := match first_text with
              | some s => if s = "" then none else some (sha1 s)
              | none => none
            match env.close with
            | .err e => .ok (failResult t e)
            | .ok _ =>
              if count = none then
                .ok { target := t, ok := false,
                      error := some "Impossibile leggere numero commenti (count=None)." }
              else
                .ok { target := t, ok := true, count := count,
                      first_text := first_text, first_hash := first_hash }

/-- monitor.py fetch_full_hash: the hash is sha1 of the raw page HTML,
with no stripping of scripts or styles and no whitespace normalization
(the source comment even notes normalization as a mere possibility). -/
def fetch_full_hash (env : FetchEnv) (t : Target) : Step PageResult :=
  match env.new_page with
  | .err e => .err e
  | .ok _ =>
    match env.route with
    | .err e => .ok (failResult t e)
    | .ok _ =>
      match env.goto with
      | .err e => .ok (failResult t e)
      | .ok _ =>
        match env.wait with
        | .err e => .ok (failResult t e)
        | .ok _ =>
          match env.content with
          | .err e => .ok (failResult t e)
          | .ok html =>
            let page_hash := sha1 html
            match env.close with
            | .err e => .ok (failResult t e)
            | .ok _ => .ok { target := t, ok := true, page_hash := some page_hash }

/-! ## Diff and notification phase (monitor.py main, lines 269-323) -/

/-- The first_text_preview value stored in state (truthiness included:
None and the empty string both take the else branch of the source). -/
def previewTrunc (ft : Option String) : Option String :=
  match ft with
  | none => none
  | some s => if s.length > 180 then some (s.take 180 ++ "…") else some s

/-- State record written by the investing branch of main. -/
def investingRecord (t : Target) (res : PageResult) : StateRec :=
  { type := t.type, name := t.name, count := res.count,
    first_hash := res.first_hash, first_text_preview := previewTrunc res.first_text }

/-- State record written by the full_page_hash branch of main. -/
def hashRecord (t : Target) (res : PageResult) : StateRec :=
  { type := t.type, name := t.name, page_hash := res.page_hash }

/-- The change message of the investing branch. -/
def countMsg (t : Target) (prevCount newCount : Int) (ft : Option String) : String :=
  let preview := match ft with
    | none => "(testo non letto)"
    | some s => if s = "" then "(testo non letto)" else s.take 250
  "📈 " ++ t.name ++ "\n" ++ t.url ++ "\nTotale commenti: " ++ toString prevCount ++
    " → " ++ toString newCount ++ "\n\nPrimo commento (preview):\n" ++ preview

/-- The change message of the full_page_hash branch. -/
def hashMsg (t : Target) : String :=
  "🔔 Pagina cambiata: " ++ t.name ++ "\n" ++ t.url

/-- The per-target error line appended for a failed result (a missing
error message prints as None under the Python f-string). -/
def errMsg (t : Target) (err : Option String) : String :=
  "• " ++ t.name ++ "\n  " ++ t.url ++ "\n  " ++
    (match err with | some e => e | none => "None")

/-- One iteration of the result loop of main (lines 269-314), carrying
(state, changes, errors) exactly as the loop mutates them. -/
def processResult (acc : StateMap × List String × List String) (res : PageResult) :
    StateMap × List String × List String :=
  let (state, changes, errors) := acc
  let t := res.target
  let prev := dictGet state t.url
  if res.ok = false then
    (state, changes, errors ++ [errMsg t res.error])
  else if t.type = "investing_member_comments" then
    let prev_count : Option Int := prev.bind (fun r => r.count)
    let state1 := dictInsert state t.url (investingRecord t res)
    match prev_count, res.count with
    | some p, some n =>
      if n > p then (state1, changes ++ [countMsg t p n res.first_text], errors)
      else (state1, changes, errors)
    | _, _ => (state1, changes, errors)
  else
    let prev_hash : Option String := prev.bind (fun r => r.page_hash)
    let state1 := dictInsert state t.url (hashRecord t res)
    match prev_hash, res.page_hash with
    | some ph, some nh =>
      if nh ≠ ph then (state1, changes ++ [hashMsg t], errors)
      else (state1, changes, errors)
    | _, _ => (state1, changes, errors)

/-- The whole diff phase: the loop of main over the gathered results,
starting from the loaded state and empty changes/errors lists. -/
def runDiff (state0 : StateMap) (results : List PageResult) :
    StateMap × List String × List String :=
  results.foldl processResult (state0, [], [])

/-- The notification phase (lines 319-323): one batched telegram message
when changes is nonempty, none otherwise. -/
def runNotifications (changes : List String) : List String :=
  if changes.isEmpty then []
  else ["✅ Cambiamenti rilevati:\n\n" ++ String.intercalate "\n\n" changes]

/-- Split a character list at whitespace (words in order). -/
def splitWsAux : List Char → List Char → List (List Char)
  | [], acc => [acc.reverse]
  | c :: cs, acc =>
    if c.isWhitespace then acc.reverse :: splitWsAux cs []
    else splitWsAux cs (c :: acc)

/-- Join words with single spaces. -/
def joinSpace : List (List Char) → List Char
  | [] => []
  | [w] => w
  | w :: ws => w ++ ' ' :: joinSpace ws

/-- Modelled from the spec: the normalization the spec attributes to the
full_document_hash kind — strip scripts/styles and collapse whitespace —
restricted here to whitespace collapsing, which suffices to state the
claim on documents containing no script or style markup.  Used only to
compare the spec-described behaviour with the implemented one. -/
def collapseWs (s : String) : String :=
  String.mk (joinSpace ((splitWsAux s.toList []).filter (fun w => w ≠ [])))

/-! ## Helper definitions and lemmas for the diff phase -/

/-- True when a Step returned a value (the coroutine did not raise). -/
def stepOk {α : Type} : Step α → Bool
  | .ok _ => true
  | .err _ => false

/-- The page_hash carried by a returned PageResult, if any. -/
def resultHash : Step PageResult → Option String
  | .ok r => r.page_hash
  | .err _ => none

/-- The state record an ok result gets written as, per target kind. -/
def recordOf (res : PageResult) : StateRec :=
  if res.target.type = "investing_member_comments" then investingRecord res.target res
  else hashRecord res.target res

/-- State written by one ok result. -/
def stateUpd (s : StateMap) (res : PageResult) : StateMap :=
  dictInsert s res.target.url (recordOf res)

/-- Events (zero or one) emitted by one ok result against state s. -/
def eventOf (s : StateMap) (res : PageResult) : List String :=
  if res.target.type = "investing_member_comments" then
    match (dictGet s res.target.url).bind (fun r => r.count), res.count with
    | some p, some n =>
      if n > p then [countMsg res.target p n res.first_text] else []
    | _, _ => []
  else
    match (dictGet s res.target.url).bind (fun r => r.page_hash), res.page_hash with
    | some ph, some nh => if nh ≠ ph then [hashMsg res.target] else []
    | _, _ => []

/-- Characterization of one loop iteration: a failed result only appends
an error line; an ok result writes its record and appends its events. -/
theorem processResult_eq (s : StateMap) (cs es : List String) (res : PageResult) :
    processResult (s, cs, es) res =
      if res.ok = false then (s, cs, es ++ [errMsg res.target res.error])
      else (stateUpd s res, cs ++ eventOf s res, es) := by
  unfold processResult stateUpd recordOf eventOf
  by_cases hok : res.ok = false
  · simp [hok]
  · simp only [hok, if_false]
    by_cases hty : res.target.type = "investing_member_comments"
    · simp only [hty, if_true]
      cases hpc : (dictGet s res.target.url).bind (fun r => r.count) with
      | none =>
        cases hnc : res.count with
        | none => simp
        | some n => simp
      | some p =>
        cases hnc : res.count with
        | none => simp
        | some n => by_cases hgt : n > p <;> simp [hgt]
    · simp only [hty, if_false]
      cases hph : (dictGet s res.target.url).bind (fun r => r.page_hash) with
      | none =>
        cases hnh : res.page_hash with
        | none => simp
        | some nh => simp
      | some ph =>
        cases hnh : res.page_hash with
        | none => simp
        | some nh => by_cases hne : nh ≠ ph <;> simp [hne]

theorem dictGet_insert_self (s : StateMap) (u : String) (r : StateRec) :
    dictGet (dictInsert s u r) u = some r := by
  induction s with
  | nil => simp [dictInsert, dictGet]
  | cons kv t ih =>
    obtain ⟨k, v⟩ := kv
    by_cases h : k = u <;> simp [dictInsert, dictGet, h, ih]

theorem dictGet_insert_ne (s : StateMap) (u v : String) (r : StateRec)
    (h : u ≠ v) : dictGet (dictInsert s u r) v = dictGet s v := by
  induction s with
  | nil => simp [dictInsert, dictGet, h]
  | cons kv t ih =>
    obtain ⟨k, w⟩ := kv
    by_cases hk : k = u
    · subst hk
      simp [dictInsert, dictGet, h]
    · simp [dictInsert, dictGet, hk, ih]

theorem dictInsert_same (s : StateMap) (u : String) (r : StateRec)
    (h : dictGet s u = some r) : dictInsert s u r = s := by
  induction s with
  | nil => simp [dictGet] at h
  | cons kv t ih =>
    obtain ⟨k, v⟩ := kv
    by_cases hk : k = u
    · subst hk
      simp [dictGet] at h
      simp [dictInsert, h]
    · simp [dictGet, hk] at h
      simp [dictInsert, hk, ih h]

/-- An ok result diffed against a state already holding its own record
emits no event. -/
theorem eventOf_saturated (s : StateMap) (res : PageResult)
    (h : dictGet s res.target.url = some (recordOf res)) :
    eventOf s res = [] := by
  unfold eventOf recordOf at *
  by_cases hty : res.target.type = "investing_member_comments"
  · simp only [hty, if_true] at *
    rw [h]
    simp [investingRecord]
    cases res.count <;> simp
  · simp only [hty, if_false] at *
    rw [h]
    simp [hashRecord]
    cases res.page_hash <;> simp

/-- The state and changes produced by the loop do not depend on the
errors accumulator. -/
theorem foldl_errors_indep (l : List PageResult) (s : StateMap)
    (cs e1 e2 : List String) :
    (l.foldl processResult (s, cs, e1)).1 = (l.foldl processResult (s, cs, e2)).1 ∧
    (l.foldl processResult (s, cs, e1)).2.1 = (l.foldl processResult (s, cs, e2)).2.1 := by
  induction l generalizing s cs e1 e2 with
  | nil => exact ⟨rfl, rfl⟩
  | cons res t ih =>
    simp only [List.foldl_cons, processResult_eq]
    by_cases hok : res.ok = false
    · simp only [hok, if_true]
      exact ih s cs _ _
    · simp only [hok, if_false]
      exact ih _ _ _ _

/-- A url no result of the run refers to keeps its prior state entry. -/
theorem foldl_state_frame (l : List PageResult) (s : StateMap)
    (cs es : List String) (u : String)
    (h : u ∉ l.map (fun r => r.target.url)) :
    dictGet (l.foldl processResult (s, cs, es)).1 u = dictGet s u := by
  induction l generalizing s cs es with
  | nil => rfl
  | cons res t ih =>
    simp only [List.map_cons, List.mem_cons, not_or] at h
    obtain ⟨hu, ht⟩ := h
    simp only [List.foldl_cons, processResult_eq]
    by_cases hok : res.ok = false
    · simp only [hok, if_true]
      exact ih s cs _ ht
    · simp only [hok, if_false]
      rw [ih _ _ _ ht]
      exact dictGet_insert_ne s res.target.url u (recordOf res) (fun he => hu he.symm)

/-- After a run over results with pairwise-distinct urls, the state holds
the record of every ok result. -/
theorem foldl_state_saturates (l : List PageResult) (s : StateMap)
    (cs es : List String)
    (hnd : (l.map (fun r => r.target.url)).Nodup)
    (res : PageResult) (hmem : res ∈ l) (hok : res.ok = true) :
    dictGet (l.foldl processResult (s, cs, es)).1 res.target.url = some (recordOf res) := by
  induction l generalizing s cs es with
  | nil => cases hmem
  | cons r0 t ih =>
    simp only [List.map_cons, List.nodup_cons] at hnd
    obtain ⟨hnin, hndt⟩ := hnd
    simp only [List.foldl_cons, processResult_eq]
    rcases List.mem_cons.mp hmem with heq | hmt
    · subst heq
      simp only [hok, Bool.true_eq_false, if_false]
      have hfr : res.target.url ∉ t.map (fun r => r.target.url) := hnin
      rw [foldl_state_frame t _ _ _ _ hfr]
      exact dictGet_insert_self s res.target.url (recordOf res)
    · by_cases h0 : r0.ok = false
      · simp only [h0, if_true]
        exact ih _ _ _ hndt hmt
      · simp only [h0, if_false]
        exact ih _ _ _ hndt hmt

/-- Running the loop over results whose records the state already holds
changes nothing and emits no events. -/
theorem foldl_saturated_fixed (l : List PageResult) (s : StateMap)
    (cs es : List String)
    (hsat : ∀ res ∈ l, res.ok = true → dictGet s res.target.url = some (recordOf res)) :
    (l.foldl processResult (s, cs, es)).1 = s ∧
    (l.foldl processResult (s, cs, es)).2.1 = cs := by
  induction l generalizing s cs es with
  | nil => exact ⟨rfl, rfl⟩
  | cons res t ih =>
    simp only [List.foldl_cons, processResult_eq]
    by_cases hok : res.ok = false
    · simp only [hok, if_true]
      exact ih s cs _ (fun r hr ho => hsat r (List.mem_cons_of_mem res hr) ho)
    · simp only [hok, if_false]
      have hok' : res.ok = true := by
        cases hr : res.ok
        · exact absurd hr hok
        · rfl
      have hrec := hsat res (List.mem_cons_self res t) hok'
      rw [eventOf_saturated s res hrec, List.append_nil]
      unfold stateUpd
      rw [dictInsert_same s res.target.url (recordOf res) hrec]
      exact ih s cs es (fun r hr ho => hsat r (List.mem_cons_of_mem res hr) ho)

/-! ## Claim theorems -/

/-- C4: for a comment_count target whose prior record holds an integer
count, the loop emits a change event iff the new count strictly exceeds
the prior one (equal or lesser counts emit nothing), and in every ok case
the state entry is rewritten with the new count. -/
theorem count_event_iff_increase (s : StateMap) (cs es : List String)
    (res : PageResult) (r : StateRec) (p n : Int)
    (hok : res.ok = true)
    (hty : res.target.type = "investing_member_comments")
    (hprev : dictGet s res.target.url = some r)
    (hpc : r.count = some p)
    (hnc : res.count = some n) :
    processResult (s, cs, es) res =
      (dictInsert s res.target.url (investingRecord res.target res),
       if n > p then cs ++ [countMsg res.target p n res.first_text] else cs,
       es) := by
  rw [processResult_eq]
  simp only [hok, Bool.true_eq_false, if_false]
  unfold stateUpd recordOf eventOf
  simp only [hty, if_true]
  rw [hprev]
  simp only [Option.some_bind, hpc, hnc]
  by_cases hgt : n > p <;> simp [hgt]

/-- C4 witness: prior count 793, new count 800 emits exactly one event
and stores 800; the theorem applied at a concrete input. -/
theorem count_event_iff_increase_check :
    processResult
        ([("u", { type := "investing_member_comments", name := "A", count := some 793 })], [], [])
        { target := ⟨"A", "investing_member_comments", "u"⟩, ok := true, count := some 800 } =
      ([("u", { type := "investing_member_comments", name := "A", count := some 800 })],
       [countMsg ⟨"A", "investing_member_comments", "u"⟩ 793 800 none], []) := by
  rw [count_event_iff_increase _ _ _ _
        { type := "investing_member_comments", name := "A", count := some 793 } 793 800
        rfl rfl (by decide) rfl rfl]
  decide

/-- C5: a target whose url is absent from the prior state (in particular
when the prior state is the empty map) gets its record written on a
successful fetch but never produces an event, whatever its signature. -/
theorem first_run_updates_without_event (s : StateMap) (cs es : List String)
    (res : PageResult)
    (hok : res.ok = true)
    (hprev : dictGet s res.target.url = none) :
    processResult (s, cs, es) res =
      (dictInsert s res.target.url
         (if res.target.type = "investing_member_comments" then investingRecord res.target res
          else hashRecord res.target res),
       cs, es) := by
  rw [processResult_eq]
  simp only [hok, Bool.true_eq_false, if_false]
  unfold stateUpd recordOf eventOf
  by_cases hty : res.target.type = "investing_member_comments"
  · simp only [hty, if_true, hprev, Option.none_bind]
    cases res.count <;> simp
  · simp only [hty, if_false, hprev, Option.none_bind]
    cases res.page_hash <;> simp

/-- C5 witness: empty prior state, one successful full_page_hash fetch:
state gains the record and no event is emitted. -/
theorem first_run_updates_without_event_check :
    processResult ([], [], [])
        { target := ⟨"A", "full_page_hash", "u"⟩, ok := true, page_hash := some "h1" } =
      ([("u", { type := "full_page_hash", name := "A", page_hash := some "h1" })], [], []) := by
  rw [first_run_updates_without_event [] [] []
        { target := ⟨"A", "full_page_hash", "u"⟩, ok := true, page_hash := some "h1" } rfl rfl]
  decide

/-- C6: a failed result leaves the whole state map and the change list
exactly as they were (only appending its error line), and deleting a
failed result from a run changes neither the final state nor the events
of the other targets. -/
theorem failed_result_is_frame :
    (∀ (s : StateMap) (cs es : List String) (res : PageResult), res.ok = false →
      processResult (s, cs, es) res = (s, cs, es ++ [errMsg res.target res.error])) ∧
    (∀ (s0 : StateMap) (xs ys : List PageResult) (bad : PageResult), bad.ok = false →
      (runDiff s0 (xs ++ bad :: ys)).1 = (runDiff s0 (xs ++ ys)).1 ∧
      (runDiff s0 (xs ++ bad :: ys)).2.1 = (runDiff s0 (xs ++ ys)).2.1) := by
  constructor
  · intro s cs es res h
    rw [processResult_eq]
    simp [h]
  · intro s0 xs ys bad h
    unfold runDiff
    rw [List.foldl_append, List.foldl_append, List.foldl_cons]
    rcases hacc : xs.foldl processResult (s0, [], []) with ⟨sx, cx, ex⟩
    rw [processResult_eq]
    simp only [h, if_true]
    exact foldl_errors_indep ys sx cx _ ex

/-- C6 witness: a concrete timeout result leaves a one-entry state and
the change list untouched, and removing it from a two-result run leaves
the surviving target's state and events unchanged. -/
theorem failed_result_is_frame_check :
    processResult ([("u2", { type := "full_page_hash", name := "B", page_hash := some "h0" })], [], [])
        { target := ⟨"B", "full_page_hash", "u2"⟩, ok := false,
          error := some "Timeout caricamento pagina." } =
      ([("u2", { type := "full_page_hash", name := "B", page_hash := some "h0" })], [],
       ["• B\n  u2\n  Timeout caricamento pagina."]) ∧
    (runDiff [("u2", { type := "full_page_hash", name := "B", page_hash := some "h0" })]
        [{ target := ⟨"A", "full_page_hash", "u1"⟩, ok := true, page_hash := some "h1" },
         { target := ⟨"B", "full_page_hash", "u2"⟩, ok := false,
           error := some "Timeout caricamento pagina." }]).1 =
      (runDiff [("u2", { type := "full_page_hash", name := "B", page_hash := some "h0" })]
        [{ target := ⟨"A", "full_page_hash", "u1"⟩, ok := true, page_hash := some "h1" }]).1 := by
  constructor
  · rw [failed_result_is_frame.1 _ [] []
        { target := ⟨"B", "full_page_hash", "u2"⟩, ok := false,
          error := some "Timeout caricamento pagina." } rfl]
    decide
  · exact (failed_result_is_frame.2
      [("u2", { type := "full_page_hash", name := "B", page_hash := some "h0" })]
      [{ target := ⟨"A", "full_page_hash", "u1"⟩, ok := true, page_hash := some "h1" }] []
      { target := ⟨"B", "full_page_hash", "u2"⟩, ok := false,
        error := some "Timeout caricamento pagina." } rfl).1

/-- C9 (amended): when the run's target urls are pairwise distinct,
running the diff policy a second time over the same results and the
once-updated state leaves the state exactly as after the first run and
emits no event at all. -/
theorem diff_idempotent_distinct_urls (s0 : StateMap) (rs : List PageResult)
    (hnd : (rs.map (fun r => r.target.url)).Nodup) :
    (runDiff (runDiff s0 rs).1 rs).1 = (runDiff s0 rs).1 ∧
    (runDiff (runDiff s0 rs).1 rs).2.1 = [] := by
  have hsat : ∀ res ∈ rs, res.ok = true →
      dictGet (runDiff s0 rs).1 res.target.url = some (recordOf res) :=
    fun res hm ho => foldl_state_saturates rs s0 [] [] hnd res hm ho
  exact foldl_saturated_fixed rs (runDiff s0 rs).1 [] [] hsat

/-- C9 witness: two distinct urls, one count increase and one hash
change; the second identical run keeps the state and emits nothing. -/
theorem diff_idempotent_distinct_urls_check :
    (runDiff
        (runDiff [("u1", { type := "investing_member_comments", name := "A", count := some 100 })]
          [{ target := ⟨"A", "investing_member_comments", "u1"⟩, ok := true, count := some 105 },
           { target := ⟨"B", "full_page_hash", "u2"⟩, ok := true, page_hash := some "h1" }]).1
        [{ target := ⟨"A", "investing_member_comments", "u1"⟩, ok := true, count := some 105 },
         { target := ⟨"B", "full_page_hash", "u2"⟩, ok := true, page_hash := some "h1" }]).1 =
      (runDiff [("u1", { type := "investing_member_comments", name := "A", count := some 100 })]
        [{ target := ⟨"A", "investing_member_comments", "u1"⟩, ok := true, count := some 105 },
         { target := ⟨"B", "full_page_hash", "u2"⟩, ok := true, page_hash := some "h1" }]).1 ∧
    (runDiff
        (runDiff [("u1", { type := "investing_member_comments", name := "A", count := some 100 })]
          [{ target := ⟨"A", "investing_member_comments", "u1"⟩, ok := true, count := some 105 },
           { target := ⟨"B", "full_page_hash", "u2"⟩, ok := true, page_hash := some "h1" }]).1
        [{ target := ⟨"A", "investing_member_comments", "u1"⟩, ok := true, count := some 105 },
         { target := ⟨"B", "full_page_hash", "u2"⟩, ok := true, page_hash := some "h1" }]).2.1 = [] :=
  diff_idempotent_distinct_urls _ _ (by decide)

/-- C9 counterexample: with two results sharing one url (counts 5 then 3,
a configuration parse_targets does not rule out), the first run emits no
event but the second identical run does emit one, so the re-run event set
is neither empty-when-the-first-was-not nor identical to the first. -/
theorem diff_idempotence_fails_duplicate_url :
    (runDiff []
        [{ target := ⟨"A", "investing_member_comments", "u"⟩, ok := true, count := some 5 },
         { target := ⟨"A", "investing_member_comments", "u"⟩, ok := true, count := some 3 }]).2.1 = [] ∧
    ¬((runDiff
          (runDiff []
            [{ target := ⟨"A", "investing_member_comments", "u"⟩, ok := true, count := some 5 },
             { target := ⟨"A", "investing_member_comments", "u"⟩, ok := true, count := some 3 }]).1
          [{ target := ⟨"A", "investing_member_comments", "u"⟩, ok := true, count := some 5 },
           { target := ⟨"A", "investing_member_comments", "u"⟩, ok := true, count := some 3 }]).2.1 = [] ∨
      (runDiff
          (runDiff []
            [{ target := ⟨"A", "investing_member_comments", "u"⟩, ok := true, count := some 5 },
             { target := ⟨"A", "investing_member_comments", "u"⟩, ok := true, count := some 3 }]).1
          [{ target := ⟨"A", "investing_member_comments", "u"⟩, ok := true, count := some 5 },
           { target := ⟨"A", "investing_member_comments", "u"⟩, ok := true, count := some 3 }]).2.1 =
        (runDiff []
          [{ target := ⟨"A", "investing_member_comments", "u"⟩, ok := true, count := some 5 },
           { target := ⟨"A", "investing_member_comments", "u"⟩, ok := true, count := some 3 }]).2.1) := by
  decide

/-- C1 (amended): the run has no anti-spam suppression: whenever at least
one target qualifies for an event — two or more included — exactly one
batched notification is attempted, and (for pairwise-distinct urls) the
new state records the latest signature of every successfully fetched
target. -/
theorem no_antispam_single_notification (s0 : StateMap) (rs : List PageResult)
    (res : PageResult)
    (hnd : (rs.map (fun r => r.target.url)).Nodup)
    (hmem : res ∈ rs) (hok : res.ok = true)
    (hne : (runDiff s0 rs).2.1 ≠ []) :
    (runNotifications (runDiff s0 rs).2.1).length = 1 ∧
    dictGet (runDiff s0 rs).1 res.target.url = some (recordOf res) := by
  constructor
  · unfold runNotifications
    rw [if_neg (by simpa using hne)]
    rfl
  · exact foldl_state_saturates rs s0 [] [] hnd res hmem hok

/-- C1 witness: a run in which both targets qualify for an event still
attempts one notification, and the first target's new signature is in
state; the theorem applied at a concrete input. -/
theorem no_antispam_single_notification_check :
    (runNotifications
        (runDiff
          [("u1", { type := "full_page_hash", name := "A", page_hash := some "h0" }),
           ("u2", { type := "full_page_hash", name := "B", page_hash := some "h0" })]
          [{ target := ⟨"A", "full_page_hash", "u1"⟩, ok := true, page_hash := some "h1" },
           { target := ⟨"B", "full_page_hash", "u2"⟩, ok := true, page_hash := some "h2" }]).2.1).length = 1 ∧
    dictGet
        (runDiff
          [("u1", { type := "full_page_hash", name := "A", page_hash := some "h0" }),
           ("u2", { type := "full_page_hash", name := "B", page_hash := some "h0" })]
          [{ target := ⟨"A", "full_page_hash", "u1"⟩, ok := true, page_hash := some "h1" },
           { target := ⟨"B", "full_page_hash", "u2"⟩, ok := true, page_hash := some "h2" }]).1 "u1" =
      some (recordOf { target := ⟨"A", "full_page_hash", "u1"⟩, ok := true, page_hash := some "h1" }) :=
  no_antispam_single_notification _ _
    { target := ⟨"A", "full_page_hash", "u1"⟩, ok := true, page_hash := some "h1" }
    (by decide) (by decide) rfl (by decide)

/-- C1 counterexample: in that same run two targets qualify for a change
event, yet the notification phase sends one batched message rather than
the zero messages the anti-spam rule requires. -/
theorem antispam_threshold_absent :
    (runDiff
        [("u1", { type := "full_page_hash", name := "A", page_hash := some "h0" }),
         ("u2", { type := "full_page_hash", name := "B", page_hash := some "h0" })]
        [{ target := ⟨"A", "full_page_hash", "u1"⟩, ok := true, page_hash := some "h1" },
         { target := ⟨"B", "full_page_hash", "u2"⟩, ok := true, page_hash := some "h2" }]).2.1.length = 2 ∧
    runNotifications
        (runDiff
          [("u1", { type := "full_page_hash", name := "A", page_hash := some "h0" }),
           ("u2", { type := "full_page_hash", name := "B", page_hash := some "h0" })]
          [{ target := ⟨"A", "full_page_hash", "u1"⟩, ok := true, page_hash := some "h1" },
           { target := ⟨"B", "full_page_hash", "u2"⟩, ok := true, page_hash := some "h2" }]).2.1 ≠ [] := by
  decide

/-- C2 (amended): no blocked classification exists: a navigation that
loads, whatever its HTTP status — 401, 403 and 429 included — and
whatever the page content, is hashed like any other page, and on the
non-investing path its ok result overwrites the target's state entry. -/
theorem no_block_classification (env : FetchEnv) (t : Target) (st : Int)
    (html : String)
    (h1 : env.new_page = .ok ()) (h2 : env.route = .ok ())
    (h3 : env.goto = .ok ⟨st⟩) (h4 : env.wait = .ok ())
    (h5 : env.content = .ok html) (h6 : env.close = .ok ())
    (hty : t.type ≠ "investing_member_comments")
    (s : StateMap) (cs es : List String) :
    fetch_full_hash env t = .ok { target := t, ok := true, page_hash := some (sha1 html) } ∧
    dictGet (processResult (s, cs, es)
        { target := t, ok := true, page_hash := some (sha1 html) }).1 t.url =
      some (hashRecord t { target := t, ok := true, page_hash := some (sha1 html) }) := by
  constructor
  · obtain ⟨np, ro, go, wa, co, ev, cl⟩ := env
    simp only at h1 h2 h3 h4 h5 h6
    subst h1 h2 h3 h4 h5 h6
    rfl
  · rw [processResult_eq]
    have hrec : recordOf { target := t, ok := true, page_hash := some (sha1 html) } =
        hashRecord t { target := t, ok := true, page_hash := some (sha1 html) } := by
      unfold recordOf
      rw [if_neg hty]
    simp only [Bool.true_eq_false, if_false]
    unfold stateUpd
    rw [hrec]
    exact dictGet_insert_self s t.url _

/-- C2 witness: a 403 challenge page is fetched as ok and its hash is
written over the stored baseline record; the theorem applied at a
concrete input. -/
theorem no_block_classification_check :
    fetch_full_hash
        { new_page := .ok (), route := .ok (), goto := .ok ⟨403⟩, wait := .ok (),
          content := .ok "<title>Attention Required! | Cloudflare</title>",
          evaluate := .ok none, close := .ok () }
        ⟨"B", "full_page_hash", "u"⟩ =
      .ok { target := ⟨"B", "full_page_hash", "u"⟩, ok := true,
            page_hash := some (sha1 "<title>Attention Required! | Cloudflare</title>") } ∧
    dictGet (processResult
        ([("u", { type := "full_page_hash", name := "B", page_hash := some "h0" })], [], [])
        { target := ⟨"B", "full_page_hash", "u"⟩, ok := true,
          page_hash := some (sha1 "<title>Attention Required! | Cloudflare</title>") }).1 "u" =
      some (hashRecord ⟨"B", "full_page_hash", "u"⟩
        { target := ⟨"B", "full_page_hash", "u"⟩, ok := true,
          page_hash := some (sha1 "<title>Attention Required! | Cloudflare</title>") }) :=
  no_block_classification _ _ 403 _ rfl rfl rfl rfl rfl rfl (by decide) _ [] []

/-- C2 counterexample: on a 403 anti-bot challenge page the fetch outcome
is ok, not blocked, and the diff phase replaces the stored baseline with
the challenge page's hash, contradicting the claim that the state entry
is left unchanged. -/
theorem blocked_page_overwrites_baseline :
    fetch_full_hash
        { new_page := .ok (), route := .ok (), goto := .ok ⟨403⟩, wait := .ok (),
          content := .ok "<title>Attention Required! | Cloudflare</title>",
          evaluate := .ok none, close := .ok () }
        ⟨"B", "full_page_hash", "u"⟩ =
      .ok { target := ⟨"B", "full_page_hash", "u"⟩, ok := true,
            page_hash := some (sha1 "<title>Attention Required! | Cloudflare</title>") } ∧
    ({ target := ⟨"B", "full_page_hash", "u"⟩, ok := true,
       page_hash := some (sha1 "<title>Attention Required! | Cloudflare</title>") } : PageResult).ok = true ∧
    dictGet (processResult
        ([("u", { type := "full_page_hash", name := "B", page_hash := some "h0" })], [], [])
        { target := ⟨"B", "full_page_hash", "u"⟩, ok := true,
          page_hash := some (sha1 "<title>Attention Required! | Cloudflare</title>") }).1 "u" ≠
      dictGet [("u", { type := "full_page_hash", name := "B", page_hash := some "h0" })] "u" := by
  refine ⟨rfl, rfl, ?_⟩
  decide

/-- C3 (amended): the full_page_hash stable id is the sha1 of the raw
page HTML, with no markup stripping and no whitespace normalization; two
successful fetches whose raw HTML coincides get equal stable ids. -/
theorem raw_hash_stable_id (e1 e2 : FetchEnv) (t1 t2 : Target)
    (r1 r2 : NavResponse) (html : String)
    (h11 : e1.new_page = .ok ()) (h12 : e1.route = .ok ())
    (h13 : e1.goto = .ok r1) (h14 : e1.wait = .ok ())
    (h15 : e1.content = .ok html) (h16 : e1.close = .ok ())
    (h21 : e2.new_page = .ok ()) (h22 : e2.route = .ok ())
    (h23 : e2.goto = .ok r2) (h24 : e2.wait = .ok ())
    (h25 : e2.content = .ok html) (h26 : e2.close = .ok ()) :
    resultHash (fetch_full_hash e1 t1) = some (sha1 html) ∧
    resultHash (fetch_full_hash e2 t2) = some (sha1 html) ∧
    resultHash (fetch_full_hash e1 t1) = resultHash (fetch_full_hash e2 t2) := by
  obtain ⟨np1, ro1, go1, wa1, co1, ev1, cl1⟩ := e1
  obtain ⟨np2, ro2, go2, wa2, co2, ev2, cl2⟩ := e2
  simp only at h11 h12 h13 h14 h15 h16 h21 h22 h23 h24 h25 h26
  subst h11 h12 h13 h14 h15 h16 h21 h22 h23 h24 h25 h26
  exact ⟨rfl, rfl, rfl⟩

/-- C3 witness: two fetches of the same raw document, one of them with a
different HTTP status, share the stable id; the theorem applied at a
concrete input. -/
theorem raw_hash_stable_id_check :
    resultHash (fetch_full_hash
        { new_page := .ok (), route := .ok (), goto := .ok ⟨200⟩, wait := .ok (),
          content := .ok "<p>hi there</p>", evaluate := .ok none, close := .ok () }
        ⟨"A", "full_page_hash", "u1"⟩) = some (sha1 "<p>hi there</p>") ∧
    resultHash (fetch_full_hash
        { new_page := .ok (), route := .ok (), goto := .ok ⟨500⟩, wait := .ok (),
          content := .ok "<p>hi there</p>", evaluate := .ok none, close := .ok () }
        ⟨"B", "full_page_hash", "u2"⟩) = some (sha1 "<p>hi there</p>") ∧
    resultHash (fetch_full_hash
        { new_page := .ok (), route := .ok (), goto := .ok ⟨200⟩, wait := .ok (),
          content := .ok "<p>hi there</p>", evaluate := .ok none, close := .ok () }
        ⟨"A", "full_page_hash", "u1"⟩) =
      resultHash (fetch_full_hash
        { new_page := .ok (), route := .ok (), goto := .ok ⟨500⟩, wait := .ok (),
          content := .ok "<p>hi there</p>", evaluate := .ok none, close := .ok () }
        ⟨"B", "full_page_hash", "u2"⟩) :=
  raw_hash_stable_id _ _ _ _ ⟨200⟩ ⟨500⟩ "<p>hi there</p>"
    rfl rfl rfl rfl rfl rfl rfl rfl rfl rfl rfl rfl

/-- C3 counterexample: two documents that differ only in incidental
whitespace — their collapsed-whitespace normalizations coincide — hash
to different stable ids, because the code hashes the raw HTML without
any normalization. -/
theorem whitespace_changes_stable_id :
    collapseWs "<p>hi there</p>" = collapseWs "<p>hi  there</p>" ∧
    resultHash (fetch_full_hash
        { new_page := .ok (), route := .ok (), goto := .ok ⟨200⟩, wait := .ok (),
          content := .ok "<p>hi there</p>", evaluate := .ok none, close := .ok () }
        ⟨"A", "full_page_hash", "u"⟩) = some (sha1 "<p>hi there</p>") ∧
    resultHash (fetch_full_hash
        { new_page := .ok (), route := .ok (), goto := .ok ⟨200⟩, wait := .ok (),
          content := .ok "<p>hi  there</p>", evaluate := .ok none, close := .ok () }
        ⟨"A", "full_page_hash", "u"⟩) = some (sha1 "<p>hi  there</p>") ∧
    sha1 "<p>hi there</p>" ≠ sha1 "<p>hi  there</p>" := by
  refine ⟨by decide, rfl, rfl, ?_⟩
  decide

/-- C8 (amended): every exception or timeout raised after the page object
is created — navigation, waiting, reading content, closing — is caught
and converted to a failed PageResult; only a failure of
context.new_page itself, which the source places before the try block,
escapes the coroutine. -/
theorem errors_after_page_creation_caught (env : FetchEnv) (t : Target)
    (h : env.new_page = .ok ()) :
    stepOk (fetch_investing env t) = true ∧ stepOk (fetch_full_hash env t) = true := by
  obtain ⟨np, ro, go, wa, co, ev, cl⟩ := env
  simp only at h
  subst h
  have hite : ∀ (c : Prop) [Decidable c] (x y : PageResult),
      stepOk (if c then Step.ok x else Step.ok y) = true := by
    intro c _ x y
    by_cases hc : c <;> simp [hc, stepOk]
  unfold fetch_investing fetch_full_hash
  cases ro <;> cases go <;> cases wa <;> cases co <;> cases cl <;>
    exact ⟨by first | rfl | exact hite _ _ _, by rfl⟩

/-- C8 witness: a navigation timeout and a close-time exception are both
converted to results rather than raised; the theorem applied at a
concrete input. -/
theorem errors_after_page_creation_caught_check :
    stepOk (fetch_investing
        { new_page := .ok (), route := .ok (), goto := .err .timeout, wait := .ok (),
          content := .ok "", evaluate := .ok none, close := .err (.exn "page closed") }
        ⟨"A", "investing_member_comments", "u"⟩) = true ∧
    stepOk (fetch_full_hash
        { new_page := .ok (), route := .ok (), goto := .err .timeout, wait := .ok (),
          content := .ok "", evaluate := .ok none, close := .err (.exn "page closed") }
        ⟨"B", "full_page_hash", "u2"⟩) = true := by
  refine ⟨(errors_after_page_creation_caught _ _ rfl).1, ?_⟩
  exact (errors_after_page_creation_caught
    { new_page := .ok (), route := .ok (), goto := .err .timeout, wait := .ok (),
      content := .ok "", evaluate := .ok none, close := .err (.exn "page closed") }
    ⟨"B", "full_page_hash", "u2"⟩ rfl).2

/-- C8 counterexample: an exception raised by context.new_page — which
the source calls before entering the try block — propagates out of the
fetch coroutine instead of being converted to a failed result. -/
theorem new_page_exception_propagates :
    fetch_investing
        { new_page := .err (.exn "Target closed"), route := .ok (), goto := .ok ⟨200⟩,
          wait := .ok (), content := .ok "", evaluate := .ok none, close := .ok () }
        ⟨"A", "investing_member_comments", "u"⟩ = .err (.exn "Target closed") ∧
    stepOk (fetch_investing
        { new_page := .err (.exn "Target closed"), route := .ok (), goto := .ok ⟨200⟩,
          wait := .ok (), content := .ok "", evaluate := .ok none, close := .ok () }
        ⟨"A", "investing_member_comments", "u"⟩) = false :=
  ⟨rfl, rfl⟩

/-- C10 (amended): when no awaited operation raises, the investing fetch
returns ok exactly when the comment count was extracted, and a missing
first-comment preview never causes failure: the result is then ok with
first_text and first_hash both None. -/
theorem ok_iff_count_extracted (env : FetchEnv) (t : Target)
    (resp : NavResponse) (html : String)
    (h1 : env.new_page = .ok ()) (h2 : env.route = .ok ())
    (h3 : env.goto = .ok resp) (h4 : env.wait = .ok ())
    (h5 : env.content = .ok html) (h6 : env.close = .ok ()) :
    (∀ r : PageResult, fetch_investing env t = .ok r →
      (r.ok = true ↔ extract_comment_count html ≠ none)) ∧
    (extract_comment_count html ≠ none → extract_first_comment_text env = none →
      fetch_investing env t =
        .ok { target := t, ok := true, count := extract_comment_count html }) := by
  obtain ⟨np, ro, go, wa, co, ev, cl⟩ := env
  simp only at h1 h2 h3 h4 h5 h6
  subst h1 h2 h3 h4 h5 h6
  constructor
  · intro r hr
    unfold fetch_investing at hr
    simp only at hr
    cases hc : extract_comment_count html with
    | none =>
      rw [hc] at hr
      simp only [if_pos rfl] at hr
      cases hr
      simp
    | some v =>
      rw [hc] at hr
      simp only [reduceCtorEq, if_neg (by simp : ¬(some v = (none : Option Int)))] at hr
      cases hr
      simp
  · intro hc hft
    unfold fetch_investing
    simp only
    rw [hft]
    cases hcv : extract_comment_count html with
    | none => exact absurd hcv hc
    | some v => simp

/-- C10 witness: a page whose count is readable but that yields no
first-comment preview still produces an ok result with first_text and
first_hash None; the theorem applied at a concrete input. -/
theorem ok_iff_count_extracted_check :
    fetch_investing
        { new_page := .ok (), route := .ok (), goto := .ok ⟨200⟩, wait := .ok (),
          content := .ok "Totale dei commenti: 7", evaluate := .ok none, close := .ok () }
        ⟨"A", "investing_member_comments", "u"⟩ =
      .ok { target := ⟨"A", "investing_member_comments", "u"⟩, ok := true,
            count := extract_comment_count "Totale dei commenti: 7" } ∧
    extract_comment_count "Totale dei commenti: 7" = some 7 :=
  ⟨(ok_iff_count_extracted
      { new_page := .ok (), route := .ok (), goto := .ok ⟨200⟩, wait := .ok (),
        content := .ok "Totale dei commenti: 7", evaluate := .ok none, close := .ok () }
      ⟨"A", "investing_member_comments", "u"⟩ ⟨200⟩ "Totale dei commenti: 7"
      rfl rfl rfl rfl rfl rfl).2 (by decide) rfl,
   by decide⟩

/-- A digit (in the regex sense) is never regex whitespace. -/
theorem digit_not_space {c : Char} (h : isDigitRe c = true) : isSpaceRe c = false := by
  simp only [isDigitRe, Bool.and_eq_true, decide_eq_true_eq] at h
  obtain ⟨h1, h2⟩ := h
  simp only [isSpaceRe, Bool.or_eq_false_iff, decide_eq_false_iff_not, Bool.and_eq_false_iff,
    decide_eq_false_iff_not]
  omega

/-- takeWhile of an all-digit list followed by a non-digit boundary. -/
theorem takeWhile_digits_append {l1 l2 : List Char}
    (h1 : ∀ c ∈ l1, isDigitRe c = true)
    (h2 : ∀ c ∈ l2.take 1, isDigitRe c = false) :
    (l1 ++ l2).takeWhile isDigitRe = l1 := by
  induction l1 with
  | nil =>
    cases l2 with
    | nil => rfl
    | cons c t =>
      simp only [List.nil_append, List.takeWhile_cons, h2 c (by simp)]
      rfl
  | cons a t ih =>
    have ha := h1 a (by simp)
    simp only [List.cons_append, List.takeWhile_cons, ha, if_true]
    rw [ih (fun c hc => h1 c (by simp [hc]))]

/-- The fixed prefix of the third pattern consumes exactly the literal
phrase and any whitespace after the colon. -/
theorem matchToks_pat3_head (X : List Char) :
    matchToks pat3 ("Totale commenti: ".toList ++ X) = some (X.dropWhile isSpaceRe) := rfl

/-- A successful pattern match at the head is what re.search returns. -/
theorem reSearch_of_matchCount {toks : List RTok} {cs : List Char} {v : Int}
    (h : matchCount toks cs = some v) : reSearch toks cs = some v := by
  cases cs with
  | nil => simpa [reSearch] using h
  | cons c t => simp [reSearch, h]

/-- C7 (amended): the extractor accepts the Italian count phrases only
with an ASCII colon, reading the number as a plain maximal digit run —
a fullwidth colon is not matched and a thousands separator ends the
number — and it fails exactly when none of the three patterns matches. -/
theorem count_extractor_ascii_colon :
    (∀ (html : String) (ds rest : List Char),
      html.toList = "Totale commenti: ".toList ++ ds ++ rest →
      ds ≠ [] →
      (∀ c ∈ ds, isDigitRe c = true) →
      (∀ c ∈ rest.take 1, isDigitRe c = false) →
      reSearch pat1 html.toList = none →
      reSearch pat2 html.toList = none →
      extract_comment_count html = some (digitsToInt ds)) ∧
    (∀ html : String, extract_comment_count html = none ↔
      (reSearch pat1 html.toList = none ∧ reSearch pat2 html.toList = none ∧
       reSearch pat3 html.toList = none)) := by
  constructor
  · intro html ds rest hsplit hne hdig hrest h1 h2
    unfold extract_comment_count
    rw [h1, h2, hsplit]
    obtain ⟨d, ds', rfl⟩ : ∃ d ds', ds = d :: ds' := by
      cases ds with
      | nil => exact absurd rfl hne
      | cons d t => exact ⟨d, t, rfl⟩
    have hd : isDigitRe d = true := hdig d (by simp)
    apply reSearch_of_matchCount
    unfold matchCount
    rw [List.append_assoc, matchToks_pat3_head]
    rw [List.cons_append, List.dropWhile_cons, digit_not_space hd]
    simp only [Bool.false_eq_true, if_false]
    simp only [List.takeWhile_cons, hd, if_true]
    rw [takeWhile_digits_append (fun c hc => hdig c (by simp [hc])) hrest]
    simp
  · intro html
    unfold extract_comment_count
    cases hp1 : reSearch pat1 html.toList with
    | some v => simp [hp1]
    | none =>
      cases hp2 : reSearch pat2 html.toList with
      | some v => simp [hp2]
      | none =>
        cases hp3 : reSearch pat3 html.toList with
        | some v => simp [hp3]
        | none => simp [hp3]

/-- C7 witness: the phrase with an ASCII colon and the digit run 42 is
extracted as 42; the theorem applied at a concrete input. -/
theorem count_extractor_ascii_colon_check :
    extract_comment_count "Totale commenti: 42" = some (digitsToInt ['4', '2']) ∧
    digitsToInt ['4', '2'] = 42 :=
  ⟨count_extractor_ascii_colon.1 "Totale commenti: 42" ['4', '2'] []
      (by decide) (by decide) (by decide) (by decide) (by decide) (by decide),
   by decide⟩

/-- C7 counterexample: with the fullwidth colon the extractor returns no
count at all instead of 42, and with a thousands separator it returns 1
instead of 1234, contradicting the claimed acceptance of both forms. -/
theorem fullwidth_colon_not_matched :
    extract_comment_count "Totale commenti：42" = none ∧
    extract_comment_count "Totale commenti: 1,234" = some 1 := by
  decide

/-- C10 counterexample: the count is extracted, yet an exception raised
by page.close — still inside the try block, after extraction — makes the
fetch return a failed result, so ok is not equivalent to the count having
been extracted. -/
theorem close_failure_after_count :
    extract_comment_count "Totale dei commenti: 7" = some 7 ∧
    fetch_investing
        { new_page := .ok (), route := .ok (), goto := .ok ⟨200⟩, wait := .ok (),
          content := .ok "Totale dei commenti: 7", evaluate := .ok none,
          close := .err (.exn "page closed") }
        ⟨"A", "investing_member_comments", "u"⟩ =
      .ok { target := ⟨"A", "investing_member_comments", "u"⟩, ok := false,
            error := some "Errore: page closed" } := by
  exact ⟨by decide, by decide⟩

end PageMonitor
